import Mathlib

unseal Rat.mul Rat.add Rat.sub Rat.ofScientific Rat.inv

/-!
Verification development for the freelance-forge invoicing backend
(`src/backend/src/modules/invoices.rs`).

Modelling conventions, used consistently below:
* Rust `f64` amounts are embedded as exact rationals (`ℚ`).  The claims under
  study concern which arithmetic expressions the code computes and how results
  are formatted, not IEEE-754 rounding artifacts.
* `Uuid` values are embedded as `Nat`; `Uuid::new_v4()` is modelled by an
  explicit fresh-identifier parameter threaded into each operation.
* `NaiveDate` is embedded as its display string (dates are only ever formatted,
  never computed with).
* The database is a record of lists of rows; SeaORM queries (`find`, `filter`,
  `count`, `insert`, `delete_many`, `update`) become list operations.  A
  transaction that errors before committing leaves the database unchanged,
  which the embedding reflects by returning `Except.error` without a new
  database value.
* The Handlebars engine (`render_template` with the fixed escape function and
  the registered `money` helper) is abstracted as a function from the render
  context and the template string to `Except String String`.
* The `wkhtmltopdf` child process is abstracted as a function from the HTML
  written to its standard input to an outcome (spawn/write/wait failure, or an
  exit status together with captured standard output and standard error).
-/

/-! ## Rounding and decimal formatting (`format_money`, invoices.rs lines 910-933) -/

/-- Round a rational to the nearest integer, ties to even.  This models the
rounding performed by Rust's `format!("{:.2}", v)` (applied to `v * 100`),
which rounds the exact binary value of `v` to two decimal places with ties
going to the even digit. -/
def roundHalfEven (q : ℚ) : ℤ :=
  let f := ⌊q⌋
  if q - f < 1 / 2 then f
  else if 1 / 2 < q - f then f + 1
  else if f % 2 = 0 then f else f + 1

/-- Two-digit decimal rendering of `n < 100`: the fractional part produced by
`format!("{:.2}", _)`. -/
def twoDigits (n : Nat) : String :=
  if n < 10 then "0" ++ Nat.repr n else Nat.repr n

/-- Loop from `format_money` (invoices.rs lines 924-930): walk the reversed
digit list with its index, emitting the thousands separator before every digit
whose index is a positive multiple of 3.  The result is still reversed, as in
the Rust code; the caller reverses it back. -/
def groupAux (sep : Char) (i : Nat) : List Char → List Char
  | [] => []
  | ch :: rest =>
      (if i > 0 && i % 3 == 0 then [sep, ch] else [ch]) ++ groupAux sep (i + 1) rest

/-- Split a list into chunks of three from the front (used on the *reversed*
digit list, hence "groups of three from the right" of the original number). -/
def chunks3 {α : Type} : List α → List (List α)
  | [] => []
  | a :: b :: c :: rest => [a, b, c] :: chunks3 rest
  | l => [l]

/-- Join chunks with a single separator character between adjacent chunks. -/
def joinSep (sep : Char) : List (List Char) → List Char
  | [] => []
  | [g] => g
  | g :: g' :: gs => g ++ sep :: joinSep sep (g' :: gs)

/-- Spec-level grouping: cut the digit string into groups of three counted from
the right and join the groups with the separator. -/
def groupFromRight (sep : Char) (digits : List Char) : List Char :=
  (joinSep sep (chunks3 digits.reverse)).reverse

/-- Separator choice of `format_money` (invoices.rs lines 911-915). -/
def moneySeparators (currency : String) : Char × Char :=
  match currency with
  | "EUR" => ('.', ',')
  | "USD" => (',', '.')
  | "GBP" => (',', '.')
  | _ => (',', '.')

/-- Embedding of `format_money` (invoices.rs lines 910-933).  The Rust code
formats `|value|` with two decimals, splits the result at the decimal point
into integer part and fractional part, groups the integer digits with the
thousands separator, and reattaches the sign.  `format!("{:.2}", a)` for
`a ≥ 0` always yields the decimal digits of `c / 100`, then `.`, then the two
digits of `c % 100`, where `c` is `a * 100` rounded to the nearest integer
(ties to even); the embedding produces the two split parts directly. -/
def format_money (value : ℚ) (currency : String) : String :=
  let seps : Char × Char := moneySeparators currency
  let sign := if value < 0 then "-" else ""
  let abs_value := |value|
  let cents := (roundHalfEven (abs_value * 100)).toNat
  let int_part := Nat.repr (cents / 100)
  let frac_part := twoDigits (cents % 100)
  let grouped := groupAux seps.1 0 int_part.data.reverse
  let int_grouped := String.mk grouped.reverse
  sign ++ int_grouped ++ String.mk [seps.2] ++ frac_part

/-- Formatter written from the specification's words (§4.2): take the absolute
value, round to exactly two decimal places, insert the thousands separator
every three digits from the right of the integer part, reattach a leading `-`
iff the input was negative, and use `.`/`,` for `EUR` and `,`/`.` for every
other currency code. -/
def format_money_specModel (value : ℚ) (currency : String) : String :=
  let thousands : Char := if currency = "EUR" then '.' else ','
  let decimal : Char := if currency = "EUR" then ',' else '.'
  let cents := (roundHalfEven (|value| * 100)).toNat
  let intDigits := (Nat.repr (cents / 100)).data
  (if value < 0 then "-" else "") ++ String.mk (groupFromRight thousands intDigits)
    ++ String.mk [decimal] ++ twoDigits (cents % 100)

/-! ## Data model

Rows carry the columns that `modules/invoices.rs` reads and writes (the
`DeriveEntityModel` structs together with the columns added by the later
migrations: `invoice.invoice_number`, `invoice_line_item.use_quantity`,
`company.user_id`). -/

deriving instance DecidableEq for Except

structure UserRow where
  id : Nat
  address : Option String
deriving DecidableEq

structure CompanyRow where
  id : Nat
  user_id : Nat
  name : String
  address : String
deriving DecidableEq

structure TemplateRow where
  id : Nat
  user_id : Nat
  name : String
  html : String
deriving DecidableEq

structure InvoiceRow where
  id : Nat
  invoice_number : String
  user_id : Option Nat
  company_id : Option Nat
  template_id : Option Nat
  client_name : String
  client_address : String
  description : String
  amount : ℚ
  currency : String
  user_address : String
  total_amount : ℚ
  date : String
deriving DecidableEq

structure LineItemRow where
  id : Nat
  invoice_id : Nat
  description : String
  quantity : ℚ
  unit_price : ℚ
  line_total : ℚ
  use_quantity : Bool
deriving DecidableEq

/-- The persistent state the invoice module touches. -/
structure Db where
  companies : List CompanyRow
  templates : List TemplateRow
  invoices : List InvoiceRow
  line_items : List LineItemRow
deriving DecidableEq

/-- Request payload `LineItemInput` (invoices.rs lines 34-40). -/
structure LineItemInput where
  description : String
  quantity : ℚ
  unit_price : ℚ
  use_quantity : Option Bool
deriving DecidableEq

/-- Request payload `NewInvoice` (invoices.rs lines 23-32). -/
structure NewInvoice where
  company_id : Nat
  template_id : Option Nat
  client_name : String
  client_address : String
  currency : String
  date : String
  items : List LineItemInput
deriving DecidableEq

/-- Request payload `UpdateInvoiceRequest` (invoices.rs lines 70-81). -/
structure UpdateInvoiceRequest where
  company_id : Option Nat
  template_id : Option Nat
  client_name : Option String
  client_address : Option String
  description : Option String
  amount : Option ℚ
  currency : Option String
  date : Option String
  items : Option (List LineItemInput)
deriving DecidableEq

/-- Response shape `LineItemResponse` (invoices.rs lines 42-50). -/
structure LineItemResponse where
  id : Nat
  description : String
  quantity : ℚ
  unit_price : ℚ
  line_total : ℚ
  use_quantity : Bool
deriving DecidableEq

/-- Response shape `InvoiceResponse` (invoices.rs lines 52-68). -/
structure InvoiceResponse where
  id : Nat
  invoice_number : String
  company_id : Option Nat
  user_id : Option Nat
  template_id : Option Nat
  client_name : String
  client_address : String
  description : String
  amount : ℚ
  currency : String
  user_address : String
  total_amount : ℚ
  date : String
  items : List LineItemResponse
deriving DecidableEq

/-- Error pairs `(StatusCode, String)` as produced by the handlers. -/
abbrev AppError := Nat × String

/-- The per-item charge closure that `create_invoice` (lines 130-136 and
177-182) and `update_invoice` (lines 399-405 and 432-437) each inline:
`use_quantity` (defaulting to `true` when absent) selects between
`quantity * unit_price` and the flat `unit_price`. -/
def lineItemTotal (item : LineItemInput) : ℚ :=
  if item.use_quantity.getD true then item.quantity * item.unit_price else item.unit_price

/-- Per-item insertion loop shared by `create_invoice` (lines 176-204) and the
items branch of `update_invoice` (lines 431-459): each input becomes a
`LineItemRow` with a fresh id (modelled as consecutive naturals) and the
computed `line_total`/`use_quantity`. -/
def insertItems (invoice_id : Nat) : Nat → List LineItemInput → List LineItemRow
  | _, [] => []
  | fresh, item :: rest =>
      { id := fresh
        invoice_id := invoice_id
        description := item.description
        quantity := item.quantity
        unit_price := item.unit_price
        line_total := lineItemTotal item
        use_quantity := item.use_quantity.getD true } :: insertItems invoice_id (fresh + 1) rest

/-- Projection of a stored line item into its response shape (the
`LineItemResponse` constructions at lines 196-203 and 451-458). -/
def toLineItemResponse (li : LineItemRow) : LineItemResponse :=
  { id := li.id
    description := li.description
    quantity := li.quantity
    unit_price := li.unit_price
    line_total := li.line_total
    use_quantity := li.use_quantity }

/-- Projection of an invoice row plus item responses into `InvoiceResponse`
(the response constructions at lines 210-225, 465-480, 490-505). -/
def mkInvoiceResponse (row : InvoiceRow) (items : List LineItemResponse) : InvoiceResponse :=
  { id := row.id
    invoice_number := row.invoice_number
    company_id := row.company_id
    user_id := row.user_id
    template_id := row.template_id
    client_name := row.client_name
    client_address := row.client_address
    description := row.description
    amount := row.amount
    currency := row.currency
    user_address := row.user_address
    total_amount := row.total_amount
    date := row.date
    items := items }

/-- Embedding of `load_items` (invoices.rs lines 1040-1061). -/
def load_items (db : Db) (invoice_id : Nat) : List LineItemResponse :=
  (db.line_items.filter (fun li => li.invoice_id == invoice_id)).map toLineItemResponse

/-- Embedding of `next_invoice_number` (invoices.rs lines 1063-1073):
`format!("IN-{:05}", count + 1)` where `count` is the number of invoices owned
by the user. -/
def zeroPad5 (n : Nat) : String :=
  String.mk (List.replicate (5 - (Nat.repr n).length) '0' ++ (Nat.repr n).data)

def next_invoice_number (db : Db) (user_id : Nat) : String :=
  "IN-" ++ zeroPad5 ((db.invoices.filter (fun i => i.user_id == some user_id)).length + 1)

/-- Embedding of `resolve_template_id` (invoices.rs lines 941-959): an
explicitly supplied template id must resolve to a template row owned by the
caller, otherwise the operation fails with the `Invalid template` validation
error; an absent id resolves to `none`. -/
def resolve_template_id (db : Db) (user_id : Nat) (template_id : Option Nat) :
    Except AppError (Option Nat) :=
  match template_id with
  | some id =>
      if (db.templates.find? (fun t => t.id == id && t.user_id == user_id)).isSome
      then .ok (some id)
      else .error (400, "Invalid template")
  | none => .ok none

/-! ## Invoice creation and update -/

/-- Embedding of `create_invoice` (invoices.rs lines 107-226).  `fresh` stands
in for `Uuid::new_v4()`: the new invoice gets id `fresh` and the inserted line
items get `fresh + 1, fresh + 2, …`.  Session lookup (`require_user`) is out
of scope; the authenticated user is a parameter.  Database errors of the ORM
are not modelled; every other check follows the source order: missing user
address, empty item list, company ownership lookup, total computation,
template resolution, invoice insert, per-item insert. -/
def create_invoice (db : Db) (user : UserRow) (fresh : Nat) (payload : NewInvoice) :
    Except AppError (Db × InvoiceResponse) :=
  match user.address with
  | none => .error (400, "User address is required")
  | some user_address =>
  if payload.items.isEmpty then .error (400, "At least one line item is required")
  else
  match db.companies.find? (fun c => c.id == payload.company_id && c.user_id == user.id) with
  | none => .error (400, "Invalid company")
  | some company =>
  let total_amount := (payload.items.map lineItemTotal).sum
  let description := ((payload.items.get? 0).map (fun item => item.description)).getD "Line items"
  match resolve_template_id db user.id payload.template_id with
  | .error e => .error e
  | .ok template_id =>
  let invoice_number := next_invoice_number db user.id
  let row : InvoiceRow :=
    { id := fresh
      invoice_number := invoice_number
      user_id := some user.id
      company_id := some company.id
      template_id := template_id
      client_name := company.name
      client_address := company.address
      description := description
      amount := total_amount
      currency := payload.currency
      user_address := user_address
      total_amount := total_amount
      date := payload.date }
  let newItems := insertItems fresh (fresh + 1) payload.items
  let db' : Db := { db with
    invoices := db.invoices ++ [row]
    line_items := db.line_items ++ newItems }
  .ok (db', mkInvoiceResponse row (newItems.map toLineItemResponse))

/-- Client-field staging of `update_invoice` (invoices.rs lines 359-364):
supplied `client_name`/`client_address` overwrite the staged row. -/
def applyClientFields (payload : UpdateInvoiceRequest) (row : InvoiceRow) : InvoiceRow :=
  let a1 := match payload.client_name with
    | some n => { row with client_name := n }
    | none => row
  match payload.client_address with
  | some ad => { a1 with client_address := ad }
  | none => a1

/-- Scalar-field staging of `update_invoice` (invoices.rs lines 380-392):
description, amount (which also overwrites `total_amount`), currency, date. -/
def applyScalarFields (payload : UpdateInvoiceRequest) (row : InvoiceRow) : InvoiceRow :=
  let a5 := match payload.description with
    | some d => { row with description := d }
    | none => row
  let a6 := match payload.amount with
    | some am => { a5 with amount := am, total_amount := am }
    | none => a5
  let a7 := match payload.currency with
    | some c => { a6 with currency := c }
    | none => a6
  match payload.date with
  | some d => { a7 with date := d }
  | none => a7

/-- Company branch of `update_invoice` (invoices.rs lines 365-375): an
explicit `company_id` must resolve to an owned company, which then also
overwrites the client snapshot. -/
def companyStep (db : Db) (user_id : Nat) (company_id : Option Nat) (active : InvoiceRow) :
    Except AppError InvoiceRow :=
  match company_id with
  | none => .ok active
  | some cid =>
      match db.companies.find? (fun c => c.id == cid && c.user_id == user_id) with
      | none => .error (400, "Invalid company")
      | some company =>
          .ok { active with
            company_id := some company.id
            client_name := company.name
            client_address := company.address }

/-- Template branch of `update_invoice` (invoices.rs lines 376-379). -/
def templateStep (db : Db) (user_id : Nat) (template_id : Option Nat) (active : InvoiceRow) :
    Except AppError InvoiceRow :=
  match template_id with
  | none => .ok active
  | some tid =>
      match resolve_template_id db user_id (some tid) with
      | .error e => .error e
      | .ok resolved => .ok { active with template_id := resolved }

/-- Items branch of `update_invoice` (invoices.rs lines 397-480), reached only
with a non-empty replacement list: recompute the total, overwrite
`amount`/`total_amount`/`description` on the staged row, persist it, delete
every stored line item of the invoice, and insert the replacements. -/
def replaceInvoiceItems (db : Db) (active : InvoiceRow) (fresh : Nat)
    (items : List LineItemInput) : Db × InvoiceResponse :=
  let total_amount := (items.map lineItemTotal).sum
  let a1 := { active with amount := total_amount, total_amount := total_amount }
  let a2 := match items.get? 0 with
    | some first => { a1 with description := first.description }
    | none => a1
  let db1 : Db := { db with
    invoices := db.invoices.map (fun i => if i.id == a2.id then a2 else i) }
  let db2 : Db := { db1 with
    line_items := db1.line_items.filter (fun li => !(li.invoice_id == a2.id)) }
  let newItems := insertItems a2.id fresh items
  let db3 : Db := { db2 with line_items := db2.line_items ++ newItems }
  (db3, mkInvoiceResponse a2 (newItems.map toLineItemResponse))

/-- Embedding of `update_invoice` (invoices.rs lines 340-506).  The staged
`ActiveModel` is an invoice row that each supplied field overwrites in source
order: client_name, client_address, company (with snapshot overwrite),
template, description, amount (which also overwrites `total_amount`, line
383-386), currency, date; then either the items branch (empty list rejected
before anything is persisted) or a plain row update. -/
def update_invoice (db : Db) (user : UserRow) (id : Nat) (fresh : Nat)
    (payload : UpdateInvoiceRequest) : Except AppError (Db × InvoiceResponse) :=
  match db.invoices.find? (fun i => i.id == id && i.user_id == some user.id) with
  | none => .error (404, "Invoice not found")
  | some existing =>
  match companyStep db user.id payload.company_id (applyClientFields payload existing) with
  | .error e => .error e
  | .ok a3 =>
  match templateStep db user.id payload.template_id a3 with
  | .error e => .error e
  | .ok a4 =>
  let a8 := applyScalarFields payload a4
  match payload.items with
  | some items =>
      if items.isEmpty then .error (400, "At least one line item is required")
      else .ok (replaceInvoiceItems db a8 fresh items)
  | none =>
      let db2 : Db := { db with
        invoices := db.invoices.map (fun i => if i.id == a8.id then a8 else i) }
      .ok (db2, mkInvoiceResponse a8 (load_items db2 a8.id))

/-! ## Template data and rendering

String constants below are the exact text of the Rust raw-string literals in
`build_invoice_pdf` and `default_template`, after applying `format!` brace
unescaping (`\x7b\x7b` in the Rust source is a literal single brace in the
produced string).  In particular, the "handlebars-looking" parts of the
default-branch document template come out with *single* braces (plain text to
the template engine), while `default_template`'s fragment, written with
quadrupled braces in the source, contains genuine double-brace placeholders. -/

/-- Fixed legal note (invoices.rs lines 748 and 966). -/
def invoiceNoteText : String :=
  "Rechnungsbetrag ohne Umsatzsteuer gem\u00e4\u00df \u00a7 19 Abs. 1 UStG. (Invoice amount without sales tax according to \u00a7 19 paragraph 1 UStG)"

/-- Resolved template data (invoices.rs lines 935-939). -/
structure InvoiceTemplateData where
  html : String
  is_custom : Bool
deriving DecidableEq

/-- Page shell put around a custom fragment (invoices.rs lines 785-806): the
text before the interpolated fragment. -/
def customShellHead : String :=

  "<!doctype html>\n<html>\n<head>\n  <meta charset=\"utf-8\" />\n  <style>\n    body \x7b font-family: \"DejaVu Sans\", Arial, sans-serif; color: #222; margin: 32px; \x7d\n    h1, h2, h3 \x7b margin: 0 0 8px; \x7d\n    .section \x7b margin-bottom: 18px; \x7d\n    table \x7b width: 100%; border-collapse: collapse; margin-top: 12px; \x7d\n    th, td \x7b border-bottom: 1px solid #ddd; padding: 6px 4px; text-align: left; \x7d\n    th \x7b font-size: 12px; text-transform: uppercase; letter-spacing: 0.08em; \x7d\n    .right \x7b text-align: right; \x7d\n  </style>\n</head>\n<body>\n  "

/-- Page shell put around a custom fragment: the text after the fragment. -/
def customShellTail : String :=

  "\n</body>\n</html>"

/-- Default-branch document template (invoices.rs lines 808-880): text before the interpolated `user_address`. -/
def defaultDocA : String :=

  "<!doctype html>\n<html>\n<head>\n  <meta charset=\"utf-8\" />\n  <style>\n    body \x7b font-family: \"DejaVu Sans\", Arial, sans-serif; color: #222; margin: 32px; \x7d\n    h1 \x7b margin: 0 0 8px; \x7d\n    h2 \x7b margin: 0 0 6px; font-size: 14px; text-transform: uppercase; letter-spacing: 0.08em; \x7d\n    .row \x7b display: flex; justify-content: space-between; gap: 12px; \x7d\n    .section \x7b margin-bottom: 18px; \x7d\n    .muted \x7b color: #666; font-size: 12px; \x7d\n    table \x7b width: 100%; border-collapse: collapse; margin-top: 12px; \x7d\n    th, td \x7b border-bottom: 1px solid #ddd; padding: 6px 4px; text-align: left; \x7d\n    th \x7b font-size: 12px; text-transform: uppercase; letter-spacing: 0.08em; \x7d\n    .right \x7b text-align: right; \x7d\n    .totals \x7b margin-top: 10px; text-align: right; font-weight: bold; \x7d\n  </style>\n</head>\n<body>\n  <div class=\"section\">\n    <h1>Invoice</h1>\n    <div class=\"muted\">"

/-- Default-branch document template: between `user_address` and `id`. -/
def defaultDocB : String :=

  "</div>\n    <div class=\"row muted\" style=\"margin-top:6px;\">\n      <div>Invoice ID: "

/-- Default-branch document template: between `id` and `date`. -/
def defaultDocC : String :=

  "</div>\n      <div>Date: "

/-- Default-branch document template: between `date` and `client_name`. -/
def defaultDocD : String :=

  "</div>\n    </div>\n  </div>\n\n  <div class=\"section\">\n    <h2>Bill To</h2>\n    <div>"

/-- Default-branch document template: between `client_name` and `client_address`. -/
def defaultDocE : String :=

  "</div>\n    <div class=\"muted\">"

/-- Default-branch document template: text after `client_address`. -/
def defaultDocF : String :=

  "</div>\n  </div>\n\n  <table>\n    <thead>\n      <tr>\n        <th>Description</th>\n        <th class=\"right\">Qty</th>\n        <th class=\"right\">Unit</th>\n        <th class=\"right\">Total</th>\n      </tr>\n    </thead>\n    <tbody>\n      \x7b#each items\x7d\n      <tr>\n        <td>\x7bdescription\x7d</td>\n        <td class=\"right\">\x7bquantity\x7d</td>\n        <td class=\"right\">\x7bunit_price\x7d</td>\n        <td class=\"right\">\x7bcurrency\x7d \x7bline_total\x7d</td>\n      </tr>\n      \x7b/each\x7d\n    </tbody>\n  </table>\n\n  <div class=\"totals\">\n    Subtotal: \x7bcurrency\x7d \x7bsubtotal\x7d<br/>\n    Total: \x7bcurrency\x7d \x7btotal_amount\x7d\n  </div>\n\n  <div class=\"section\" style=\"margin-top:18px;\">\n    <h2>Notes</h2>\n    <div class=\"muted\">\x7binvoice_note\x7d</div>\n  </div>\n</body>\n</html>"

/-- Fragment html of `default_template` (invoices.rs lines 986-1038): text before the interpolated note. -/
def defaultTemplateFragA : String :=

  "<div class=\"section\">\n  <h1>Invoice</h1>\n  <div class=\"muted\">\x7b\x7buser_address\x7d\x7d</div>\n  <div class=\"row muted\" style=\"margin-top:6px;\">\n    <div>Invoice ID: \x7b\x7binvoice_id\x7d\x7d</div>\n    <div>Date: \x7b\x7binvoice_date\x7d\x7d</div>\n  </div>\n</div>\n\n<div class=\"section\">\n  <h2>Bill To</h2>\n  <div>\x7b\x7bclient_name\x7d\x7d</div>\n  <div class=\"muted\">\x7b\x7bclient_address\x7d\x7d</div>\n</div>\n\n<table>\n  <thead>\n    <tr>\n      <th>Description</th>\n      <th class=\"right\">Qty</th>\n      <th class=\"right\">Unit</th>\n      <th class=\"right\">Total</th>\n    </tr>\n  </thead>\n  <tbody>\n    \x7b\x7b#each items\x7d\x7d\n    <tr>\n      <td>\x7b\x7bdescription\x7d\x7d</td>\n      <td class=\"right\">\x7b\x7bquantity\x7d\x7d</td>\n      <td class=\"right\">\x7b\x7bunit_price\x7d\x7d</td>\n      <td class=\"right\">\x7b\x7bcurrency\x7d\x7d \x7b\x7bline_total\x7d\x7d</td>\n    </tr>\n    \x7b\x7b/each\x7d\x7d\n  </tbody>\n</table>\n\n<div class=\"totals\">\n  Subtotal: \x7b\x7bcurrency\x7d\x7d \x7b\x7bsubtotal\x7d\x7d<br/>\n  Total: \x7b\x7bcurrency\x7d\x7d \x7b\x7btotal_amount\x7d\x7d\n</div>\n\n<div class=\"section\" style=\"margin-top:18px;\">\n  <h2>Notes</h2>\n  <div class=\"muted\">"

/-- Fragment html of `default_template`: text after the note. -/
def defaultTemplateFragB : String :=

  "</div>\n</div>"

/-- Embedding of `default_template` (invoices.rs lines 986-1038). -/
def default_template (note : String) : InvoiceTemplateData :=
  { html := defaultTemplateFragA ++ note ++ defaultTemplateFragB
    is_custom := false }

/-- Embedding of `load_template` (invoices.rs lines 961-984): at render time a
missing owner or a template id that does not resolve to a row owned by the
invoice owner silently degrades to the built-in default template. -/
def load_template (db : Db) (user_id : Option Nat) (template_id : Option Nat) :
    InvoiceTemplateData :=
  match user_id with
  | none => default_template invoiceNoteText
  | some uid =>
      match template_id with
      | some id =>
          match db.templates.find? (fun t => t.id == id && t.user_id == uid) with
          | some t => { html := t.html, is_custom := true }
          | none => default_template invoiceNoteText
      | none => default_template invoiceNoteText

/-- Blankness test of the `render` closure (invoices.rs line 772,
`input.trim().is_empty()`): a string trims to empty iff every character is
whitespace. -/
def isBlank (s : String) : Bool :=
  s.data.all (fun c => c.isWhitespace)

/-- Render context handed to the template engine (the `json!` construction at
invoices.rs lines 749-769).  `subtotal` is recomputed from the current item
responses, independently of the stored `total_amount`. -/
structure RenderCtxData where
  invoice_id : String
  invoice_number : String
  invoice_date : String
  client_name : String
  client_address : String
  user_address : String
  currency : String
  total_amount : ℚ
  subtotal : ℚ
  invoice_note : String
  items : List LineItemResponse
deriving DecidableEq

def mkRenderCtx (invoice : InvoiceRow) (items : List LineItemResponse) : RenderCtxData :=
  { invoice_id := Nat.repr invoice.id
    invoice_number := invoice.invoice_number
    invoice_date := invoice.date
    client_name := invoice.client_name
    client_address := invoice.client_address
    user_address := invoice.user_address
    currency := invoice.currency
    total_amount := invoice.total_amount
    subtotal := (items.map (fun item => item.line_total)).sum
    invoice_note := invoiceNoteText
    items := items }

/-- Abstraction of `handlebars.render_template(input, &ctx)` with the
registered escape function and `money` helper: a function from the template
string to either the expanded output or a syntax/render error. -/
abbrev HbEngine := String → Except String String

/-- Embedding of the `render` closure (invoices.rs lines 771-778): blank input
yields the empty string without invoking the engine; an engine error falls
back to the original, unexpanded template text. -/
def renderStr (engine : HbEngine) (input : String) : String :=
  if isBlank input then ""
  else
    match engine input with
    | .ok s => s
    | .error _ => input

/-- Substring search mirroring Rust `str::contains` on a character list. -/
def containsSub (pat : List Char) : List Char → Bool
  | [] => pat.isEmpty
  | c :: rest => pat.isPrefixOf (c :: rest) || containsSub pat rest

/-- Check from invoices.rs line 782:
`template_html.to_lowercase().contains("<html")`.  `to_lowercase` is modelled
per character (ASCII-faithful, which decides the `<html` search). -/
def containsHtmlTag (s : String) : Bool :=
  containsSub ("<html".data) (s.data.map Char.toLower)

/-- Full document template of the default branch (invoices.rs lines 808-880):
the fixed shell with the five invoice fields interpolated. -/
def defaultDocTemplate (invoice : InvoiceRow) : String :=
  defaultDocA ++ invoice.user_address ++ defaultDocB ++ Nat.repr invoice.id
    ++ defaultDocC ++ invoice.date ++ defaultDocD ++ invoice.client_name
    ++ defaultDocE ++ invoice.client_address ++ defaultDocF

/-- HTML-production part of `build_invoice_pdf` (invoices.rs lines 722-884).
`hb` abstracts the configured Handlebars instance: applied to the render
context it yields the `render_template` function.  A custom template is
expanded through the `render` closure and used verbatim when the result
contains an opening `<html` tag (case-insensitively), otherwise wrapped in the
fixed custom shell; the default branch expands the fixed document template
directly, falling back to its unexpanded text on error (lines 881-883). -/
def buildInvoiceHtml (hb : RenderCtxData → HbEngine) (tpl : InvoiceTemplateData)
    (invoice : InvoiceRow) (items : List LineItemResponse) : String :=
  let ctx := mkRenderCtx invoice items
  if tpl.is_custom then
    let template_html := renderStr (hb ctx) tpl.html
    if containsHtmlTag template_html then template_html
    else customShellHead ++ template_html ++ customShellTail
  else
    let html_template := defaultDocTemplate invoice
    match hb ctx html_template with
    | .ok s => s
    | .error _ => html_template

/-- Outcome of one `wkhtmltopdf` invocation: captured exit success, standard
output bytes and (lossily decoded) standard error text. -/
structure ConvOutput where
  success : Bool
  stdout : List Nat
  stderr : String
deriving DecidableEq

/-- Possible behaviours of the converter process boundary
(invoices.rs lines 886-907): failure to spawn, failure to write the HTML to
its input stream, failure to wait for it, or a completed run. -/
inductive ConvRun where
  | spawnFailed (e : String)
  | writeFailed (e : String)
  | waitFailed (e : String)
  | completed (out : ConvOutput)
deriving DecidableEq

/-- Converter abstraction: the outcome as a function of the full HTML document
written to the child process's standard input. -/
abbrev Converter := String → ConvRun

/-- Process part of `build_invoice_pdf` (invoices.rs lines 886-907): spawn
`wkhtmltopdf - -`, write the whole HTML to its stdin, wait; a failure exit
status surfaces the stderr text as the error payload, success returns exactly
the stdout bytes. -/
def runWkhtmltopdf (conv : Converter) (html : String) : Except String (List Nat) :=
  match conv html with
  | .spawnFailed e => .error ("wkhtmltopdf failed to start: " ++ e)
  | .writeFailed e => .error ("wkhtmltopdf stdin write failed: " ++ e)
  | .waitFailed e => .error ("wkhtmltopdf failed: " ++ e)
  | .completed out => if out.success then .ok out.stdout else .error out.stderr

/-- Embedding of `build_invoice_pdf` (invoices.rs lines 717-908): build the
HTML document, then convert it. -/
def build_invoice_pdf (hb : RenderCtxData → HbEngine) (conv : Converter)
    (invoice : InvoiceRow) (items : List LineItemResponse)
    (template : InvoiceTemplateData) : Except String (List Nat) :=
  runWkhtmltopdf conv (buildInvoiceHtml hb template invoice items)

/-! ## Specification-side functions and predicates -/

/-- Spec-side reading of the `<html` check: the rendered text contains a
segment whose per-character lowercasing is `<html`. -/
def containsHtmlTagSpec (s : String) : Prop :=
  ∃ t : List Char, t <:+: s.data ∧ t.map Char.toLower = "<html".data

/-- Sum of the stored `line_total` values of one invoice's line items. -/
def itemsTotalOf (ls : List LineItemRow) (invoice_id : Nat) : ℚ :=
  ((ls.filter (fun li => li.invoice_id == invoice_id)).map (fun li => li.line_total)).sum

/-- Sum of the current line items of an invoice in the database. -/
def invoiceItemsTotal (db : Db) (invoice_id : Nat) : ℚ :=
  itemsTotalOf db.line_items invoice_id

/-- Decidable check of the §3 invariant over a whole database: every invoice's
stored `total_amount` equals the sum of its current line items' totals. -/
def dbTotalsConsistent (db : Db) : Bool :=
  db.invoices.all (fun inv => inv.total_amount == invoiceItemsTotal db inv.id)

/-- Characters of a document strictly before the first occurrence of
`<body>` — the page-shell head (doctype, head element, embedded stylesheet). -/
def takeUntilBody : List Char → List Char
  | [] => []
  | c :: rest =>
      if ("<body>".data).isPrefixOf (c :: rest) then []
      else c :: takeUntilBody rest

/-! ## Concrete fixtures -/

deriving instance Inhabited for InvoiceRow

deriving instance Inhabited for InvoiceResponse

def exUser : UserRow := { id := 1, address := some "12 Freelancer Way" }

def exCompany : CompanyRow :=
  { id := 10, user_id := 1, name := "ACME GmbH", address := "1 Client Street" }

def exDb0 : Db := { companies := [exCompany], templates := [], invoices := [], line_items := [] }

def exPayload : NewInvoice :=
  { company_id := 10
    template_id := none
    client_name := "Payload Name (ignored)"
    client_address := "Payload Address (ignored)"
    currency := "EUR"
    date := "2026-01-15"
    items := [{ description := "Consulting", quantity := 2, unit_price := 5,
                use_quantity := some true }] }

/-- Database and response after creating `exPayload` in `exDb0`. -/
def exCreateRes : Db × InvoiceResponse :=
  ((create_invoice exDb0 exUser 100 exPayload).toOption).getD (exDb0, default)

/-- Amount-only update request: no items, `amount := 99`. -/
def exUpdAmount : UpdateInvoiceRequest :=
  { company_id := none, template_id := none, client_name := none, client_address := none
    description := none, amount := some 99, currency := none, date := none, items := none }

/-- Database and response after the amount-only update of the created
invoice. -/
def exUpdateRes : Db × InvoiceResponse :=
  ((update_invoice exCreateRes.1 exUser 100 0 exUpdAmount).toOption).getD (exCreateRes.1, default)

def exEmptyPayload : NewInvoice := { exPayload with items := [] }

/-- Engine that fails on every non-blank template (used by the C5 witness). -/
def engineBoom : HbEngine :=
  fun s => if isBlank s then .ok "" else .error "syntax error"

/-- C6 counterexample inputs: an identity engine, a fragment-only custom
template, and a concrete invoice row. -/
def okEngine : RenderCtxData → HbEngine := fun _ s => .ok s

def exCustomTpl : InvoiceTemplateData := { html := "hello", is_custom := true }

def exInvRow : InvoiceRow :=
  { id := 100, invoice_number := "IN-00001", user_id := some 1, company_id := some 10
    template_id := none, client_name := "ACME GmbH", client_address := "1 Client Street"
    description := "Consulting", amount := 10, currency := "EUR"
    user_address := "12 Freelancer Way", total_amount := 10, date := "2026-01-15" }

/-- Successful converter run returning four PDF bytes (C8 witness input). -/
def okConvOut : ConvOutput := { success := true, stdout := [37, 80, 68, 70], stderr := "" }

def okConv : Converter := fun _ => .completed okConvOut

/-! ## Theorems

Helper lemmas first (grouping, item insertion, inversion of the create/update
operations, error branches), then one theorem per claim, each with its
witness or counterexample. -/

theorem groupAux_index_mod (sep : Char) :
    ∀ (l : List Char) (i j : Nat), 1 ≤ i → 1 ≤ j → i % 3 = j % 3 →
      groupAux sep i l = groupAux sep j l := by
  intro l
  induction l with
  | nil => intro i j _ _ _; rfl
  | cons ch rest ih =>
      intro i j hi hj hmod
      simp only [groupAux]
      have h1 : (i > 0 && i % 3 == 0) = (j > 0 && j % 3 == 0) := by
        have : i > 0 := hi
        have : j > 0 := hj
        simp [Nat.lt_iff_add_one_le, hi, hj, hmod]
      rw [h1, ih (i + 1) (j + 1) (by omega) (by omega) (by omega)]

theorem groupAux_eq_joinSep (sep : Char) :
    ∀ l : List Char, groupAux sep 0 l = joinSep sep (chunks3 l)
  | [] => by simp [groupAux, chunks3, joinSep]
  | [a] => by simp [groupAux, chunks3, joinSep]
  | [a, b] => by simp [groupAux, chunks3, joinSep]
  | a :: b :: c :: rest => by
      have step : groupAux sep 0 (a :: b :: c :: rest) =
          a :: b :: c :: groupAux sep 3 rest := by
        simp [groupAux]
      cases rest with
      | nil =>
          simp [step, groupAux, chunks3, joinSep]
      | cons d rest' =>
          have h3 : groupAux sep 3 (d :: rest') = sep :: d :: groupAux sep 4 rest' := by
            simp [groupAux]
          have h0 : groupAux sep 0 (d :: rest') = d :: groupAux sep 1 rest' := by
            simp [groupAux]
          have h41 : groupAux sep 4 rest' = groupAux sep 1 rest' :=
            groupAux_index_mod sep rest' 4 1 (by omega) (by omega) (by omega)
          have ih := groupAux_eq_joinSep sep (d :: rest')
          have hchunks : chunks3 (a :: b :: c :: d :: rest') =
              [a, b, c] :: chunks3 (d :: rest') := by
            simp [chunks3]
          obtain ⟨g, gs, hc⟩ : ∃ g gs, chunks3 (d :: rest') = g :: gs := by
            cases rest' with
            | nil => exact ⟨[d], [], rfl⟩
            | cons e rest'' =>
                cases rest'' with
                | nil => exact ⟨[d, e], [], rfl⟩
                | cons f rest3 => exact ⟨[d, e, f], chunks3 rest3, rfl⟩
          rw [step, h3, h41, hchunks, hc]
          simp only [joinSep]
          rw [← hc, ← ih, h0]
          simp

theorem moneySeparators_eq_ite (c : String) :
    moneySeparators c = (if c = "EUR" then '.' else ',', if c = "EUR" then ',' else '.') := by
  unfold moneySeparators
  split <;> simp_all

theorem format_money_eq_specModel (q : ℚ) (c : String) :
    format_money q c = format_money_specModel q c := by
  simp only [format_money, format_money_specModel, groupFromRight, moneySeparators_eq_ite]
  rw [groupAux_eq_joinSep]

/-- C3: for every finite amount and currency code, `format_money` renders the
absolute value with exactly two fractional digits, groups the integer part in
threes from the right with the thousands separator, reattaches a leading `-`
iff the input was negative, uses `.`/`,` for `EUR` and `,`/`.` for every other
currency code (the spec-side formatter `format_money_specModel` spells exactly
this algorithm), and produces the four example strings of §8 of the spec. -/
theorem format_money_spec_adherence :
    (∀ (q : ℚ) (c : String), format_money q c = format_money_specModel q c)
    ∧ (∀ n : Nat, n < 100 → (twoDigits n).length = 2)
    ∧ format_money 1234.5 "EUR" = "1.234,50"
    ∧ format_money 1234.5 "USD" = "1,234.50"
    ∧ format_money (-42) "EUR" = "-42,00"
    ∧ format_money 1000000 "GBP" = "1,000,000.00" :=
  ⟨format_money_eq_specModel, by decide, by decide, by decide, by decide, by decide⟩

/-- Witness for C3: instantiates the two-fractional-digit bound at `n = 7`. -/
theorem format_money_spec_adherence_witness : (twoDigits 7).length = 2 :=
  format_money_spec_adherence.2.1 7 (by decide)

theorem containsSub_iff (pat : List Char) :
    ∀ l : List Char, containsSub pat l = true ↔ pat <:+: l := by
  intro l
  induction l with
  | nil =>
      simp only [containsSub, List.isEmpty_iff]
      constructor
      · intro h; simp [h]
      · intro h; exact List.eq_nil_of_infix_nil h
  | cons c rest ih =>
      simp [containsSub, List.infix_cons_iff, ih, List.isPrefixOf_iff_prefix]

theorem insertItems_map_line_total (iid : Nat) :
    ∀ (f : Nat) (its : List LineItemInput),
      (insertItems iid f its).map (fun li => li.line_total) = its.map lineItemTotal
  | _, [] => rfl
  | f, it :: rest => by
      simp [insertItems, insertItems_map_line_total iid (f + 1) rest]

theorem insertItems_invoice_id (iid : Nat) :
    ∀ (f : Nat) (its : List LineItemInput),
      ∀ li ∈ insertItems iid f its, li.invoice_id = iid
  | _, [] => by simp [insertItems]
  | f, it :: rest => by
      intro li hli
      simp only [insertItems, List.mem_cons] at hli
      rcases hli with h | h
      · rw [h]
      · exact insertItems_invoice_id iid (f + 1) rest li h

theorem insertItems_filter_self (iid f : Nat) (its : List LineItemInput) :
    (insertItems iid f its).filter (fun li => li.invoice_id == iid) = insertItems iid f its :=
  List.filter_eq_self.mpr (fun li hli => by
    simp [insertItems_invoice_id iid f its li hli])

theorem insertItems_resp_line_total (iid f : Nat) (its : List LineItemInput) :
    ((insertItems iid f its).map toLineItemResponse).map (fun it => it.line_total)
      = its.map lineItemTotal := by
  rw [List.map_map]
  exact insertItems_map_line_total iid f its

theorem itemsTotalOf_append (l1 l2 : List LineItemRow) (iid : Nat) :
    itemsTotalOf (l1 ++ l2) iid = itemsTotalOf l1 iid + itemsTotalOf l2 iid := by
  simp [itemsTotalOf, List.filter_append]

theorem itemsTotalOf_eq_zero (l : List LineItemRow) (iid : Nat)
    (h : ∀ li ∈ l, ¬ li.invoice_id = iid) : itemsTotalOf l iid = 0 := by
  have hf : l.filter (fun li => li.invoice_id == iid) = [] :=
    List.filter_eq_nil_iff.2 (by intro a ha; simpa using h a ha)
  simp [itemsTotalOf, hf]

theorem itemsTotalOf_filter_out (l : List LineItemRow) (iid : Nat) :
    itemsTotalOf (l.filter (fun li => !(li.invoice_id == iid))) iid = 0 :=
  itemsTotalOf_eq_zero _ _ (by
    intro li hli
    have := List.of_mem_filter hli
    simpa using this)

theorem itemsTotalOf_insertItems (iid f : Nat) (its : List LineItemInput) :
    itemsTotalOf (insertItems iid f its) iid = (its.map lineItemTotal).sum := by
  unfold itemsTotalOf
  rw [insertItems_filter_self, insertItems_map_line_total]

/-- Everything a successful `create_invoice` run guarantees, read off from the
final `.ok` branch: ids, per-item totals, the stored total, the invoice
number, the appended line items, the company snapshot, and that every invoice
row in the new database is either an old row or has `amount = total_amount`. -/
theorem create_invoice_ok_spec (db : Db) (user : UserRow) (fresh : Nat) (p : NewInvoice)
    (db' : Db) (r : InvoiceResponse)
    (h : create_invoice db user fresh p = .ok (db', r)) :
    r.id = fresh
    ∧ r.items.map (fun it => it.line_total) = p.items.map lineItemTotal
    ∧ r.total_amount = (p.items.map lineItemTotal).sum
    ∧ r.amount = r.total_amount
    ∧ r.invoice_number = next_invoice_number db user.id
    ∧ db'.line_items = db.line_items ++ insertItems fresh (fresh + 1) p.items
    ∧ (∃ company, db.companies.find?
          (fun c => c.id == p.company_id && c.user_id == user.id) = some company
        ∧ r.client_name = company.name ∧ r.client_address = company.address
        ∧ r.company_id = some company.id)
    ∧ (∀ inv ∈ db'.invoices, inv ∈ db.invoices ∨ inv.amount = inv.total_amount) := by
  simp only [create_invoice] at h
  split at h
  · simp at h
  · split at h
    · simp at h
    · split at h
      · simp at h
      · split at h
        · simp at h
        · rename_i x1 user_address haddr hitems x2 company hfind x3 template_id hresolve
          simp only [Except.ok.injEq, Prod.mk.injEq] at h
          obtain ⟨hdb, hr⟩ := h
          subst hdb
          subst hr
          refine ⟨rfl, ?_, rfl, rfl, rfl, rfl, ⟨company, hfind, rfl, rfl, rfl⟩, ?_⟩
          · exact insertItems_resp_line_total fresh (fresh + 1) p.items
          · intro inv hmem
            simp only [List.mem_append, List.mem_singleton] at hmem
            rcases hmem with hm | hm
            · exact Or.inl hm
            · subst hm
              exact Or.inr rfl

theorem applyClientFields_fields (p : UpdateInvoiceRequest) (r : InvoiceRow) :
    (applyClientFields p r).amount = r.amount
    ∧ (applyClientFields p r).total_amount = r.total_amount
    ∧ (applyClientFields p r).id = r.id := by
  unfold applyClientFields
  rcases h1 : p.client_name with _ | n <;> rcases h2 : p.client_address with _ | ad <;>
    simp [h1, h2]

theorem applyScalarFields_fields (p : UpdateInvoiceRequest) (r : InvoiceRow) :
    ((applyScalarFields p r).amount = (applyScalarFields p r).total_amount
      ∨ ((applyScalarFields p r).amount = r.amount
          ∧ (applyScalarFields p r).total_amount = r.total_amount))
    ∧ (applyScalarFields p r).id = r.id := by
  unfold applyScalarFields
  rcases ha : p.amount with _ | am
  · constructor
    · right
      rcases hd : p.description with _ | d <;> rcases hc : p.currency with _ | c <;>
        rcases hdt : p.date with _ | dt <;> simp [hd, ha, hc, hdt]
    · rcases hd : p.description with _ | d <;> rcases hc : p.currency with _ | c <;>
        rcases hdt : p.date with _ | dt <;> simp [hd, ha, hc, hdt]
  · constructor
    · left
      rcases hd : p.description with _ | d <;> rcases hc : p.currency with _ | c <;>
        rcases hdt : p.date with _ | dt <;> simp [hd, ha, hc, hdt]
    · rcases hd : p.description with _ | d <;> rcases hc : p.currency with _ | c <;>
        rcases hdt : p.date with _ | dt <;> simp [hd, ha, hc, hdt]

theorem companyStep_ok_fields (db : Db) (uid : Nat) (cid : Option Nat) (a a' : InvoiceRow)
    (h : companyStep db uid cid a = .ok a') :
    a'.amount = a.amount ∧ a'.total_amount = a.total_amount ∧ a'.id = a.id := by
  unfold companyStep at h
  split at h
  · simp only [Except.ok.injEq] at h
    subst h
    exact ⟨rfl, rfl, rfl⟩
  · split at h
    · simp at h
    · simp only [Except.ok.injEq] at h
      subst h
      exact ⟨rfl, rfl, rfl⟩

theorem templateStep_ok_fields (db : Db) (uid : Nat) (tid : Option Nat) (a a' : InvoiceRow)
    (h : templateStep db uid tid a = .ok a') :
    a'.amount = a.amount ∧ a'.total_amount = a.total_amount ∧ a'.id = a.id := by
  unfold templateStep at h
  split at h
  · simp only [Except.ok.injEq] at h
    subst h
    exact ⟨rfl, rfl, rfl⟩
  · split at h
    · simp at h
    · simp only [Except.ok.injEq] at h
      subst h
      exact ⟨rfl, rfl, rfl⟩

theorem replaceInvoiceItems_spec (db : Db) (active : InvoiceRow) (f : Nat)
    (its : List LineItemInput) :
    (replaceInvoiceItems db active f its).2.id = active.id
    ∧ (replaceInvoiceItems db active f its).2.items.map (fun it => it.line_total)
        = its.map lineItemTotal
    ∧ (replaceInvoiceItems db active f its).2.total_amount = (its.map lineItemTotal).sum
    ∧ (replaceInvoiceItems db active f its).2.amount
        = (replaceInvoiceItems db active f its).2.total_amount
    ∧ (replaceInvoiceItems db active f its).1.line_items
        = db.line_items.filter (fun li => !(li.invoice_id == active.id))
            ++ insertItems active.id f its
    ∧ (∀ inv ∈ (replaceInvoiceItems db active f its).1.invoices,
        inv ∈ db.invoices ∨ inv.amount = inv.total_amount) := by
  unfold replaceInvoiceItems
  cases hg : its.get? 0 with
  | none =>
      simp only [hg]
      refine ⟨by trivial, insertItems_resp_line_total _ _ _, by trivial, by trivial,
        by trivial, ?_⟩
      intro inv hmem
      simp only [List.mem_map] at hmem
      obtain ⟨i0, hi0, hieq⟩ := hmem
      by_cases hid : (i0.id == active.id) = true
      · rw [hid] at hieq
        simp at hieq
        subst hieq
        exact Or.inr rfl
      · rw [Bool.eq_false_iff.mpr hid] at hieq
        simp at hieq
        subst hieq
        exact Or.inl hi0
  | some first =>
      simp only [hg]
      refine ⟨by trivial, insertItems_resp_line_total _ _ _, by trivial, by trivial,
        by trivial, ?_⟩
      intro inv hmem
      simp only [List.mem_map] at hmem
      obtain ⟨i0, hi0, hieq⟩ := hmem
      by_cases hid : (i0.id == active.id) = true
      · rw [hid] at hieq
        simp at hieq
        subst hieq
        exact Or.inr rfl
      · rw [Bool.eq_false_iff.mpr hid] at hieq
        simp at hieq
        subst hieq
        exact Or.inl hi0

/-- Everything a successful items-bearing `update_invoice` run guarantees. -/
theorem update_invoice_ok_items_spec (db : Db) (u : UserRow) (id fr : Nat)
    (p : UpdateInvoiceRequest) (its : List LineItemInput) (db' : Db) (r : InvoiceResponse)
    (hp : p.items = some its)
    (h : update_invoice db u id fr p = .ok (db', r)) :
    r.items.map (fun it => it.line_total) = its.map lineItemTotal
    ∧ r.total_amount = (its.map lineItemTotal).sum
    ∧ r.amount = r.total_amount
    ∧ db'.line_items
        = db.line_items.filter (fun li => !(li.invoice_id == r.id)) ++ insertItems r.id fr its
    ∧ (∀ inv ∈ db'.invoices, inv ∈ db.invoices ∨ inv.amount = inv.total_amount) := by
  simp only [update_invoice] at h
  split at h
  · simp at h
  · split at h
    · simp at h
    · split at h
      · simp at h
      · rw [hp] at h
        split at h
        · rename_i x1 existing hfound x2 a3 hca x3 a4 hta x4 itm hitm
          injection hitm with hii
          subst hii
          split at h
          · simp at h
          · simp only [Except.ok.injEq, Prod.mk.injEq] at h
            have hdb : db' = (replaceInvoiceItems db (applyScalarFields p a4) fr its).1 := by
              rw [h]
            have hr : r = (replaceInvoiceItems db (applyScalarFields p a4) fr its).2 := by
              rw [h]
            subst hdb
            subst hr
            have hs := replaceInvoiceItems_spec db (applyScalarFields p a4) fr its
            exact ⟨hs.2.1, hs.2.2.1, hs.2.2.2.1, by rw [hs.1]; exact hs.2.2.2.2.1,
              hs.2.2.2.2.2⟩
        · rename_i x1 existing hfound x2 a3 hca x3 a4 hta x4 hnone
          simp at hnone

/-- Any successful `update_invoice` run keeps `amount = total_amount` on every
stored invoice, provided it held before. -/
theorem update_invoice_preserves_amount_eq (db : Db) (u : UserRow) (id fr : Nat)
    (p : UpdateInvoiceRequest) (db' : Db) (r : InvoiceResponse)
    (hdb : ∀ inv ∈ db.invoices, inv.amount = inv.total_amount)
    (h : update_invoice db u id fr p = .ok (db', r)) :
    ∀ inv ∈ db'.invoices, inv.amount = inv.total_amount := by
  simp only [update_invoice] at h
  split at h
  · simp at h
  · split at h
    · simp at h
    · split at h
      · simp at h
      · rename_i x1 existing hfound x2 a3 hca x3 a4 hta
        have hex : existing.amount = existing.total_amount :=
          hdb existing (List.mem_of_find?_eq_some hfound)
        have hac := applyClientFields_fields p existing
        have hcs := companyStep_ok_fields db u.id p.company_id _ a3 hca
        have hts := templateStep_ok_fields db u.id p.template_id a3 a4 hta
        have ha4 : a4.amount = a4.total_amount := by
          rw [hts.1, hts.2.1, hcs.1, hcs.2.1, hac.1, hac.2.1]
          exact hex
        have ha8 : (applyScalarFields p a4).amount = (applyScalarFields p a4).total_amount := by
          rcases (applyScalarFields_fields p a4).1 with heq | ⟨h1, h2⟩
          · exact heq
          · rw [h1, h2]; exact ha4
        split at h
        · rename_i x4 its hpi
          split at h
          · simp at h
          · simp only [Except.ok.injEq] at h
            have hdb2 : db' = (replaceInvoiceItems db (applyScalarFields p a4) fr its).1 := by
              rw [h]
            subst hdb2
            intro inv hmem
            rcases (replaceInvoiceItems_spec db (applyScalarFields p a4) fr its).2.2.2.2.2
                inv hmem with hold | heq
            · exact hdb inv hold
            · exact heq
        · simp only [Except.ok.injEq, Prod.mk.injEq] at h
          obtain ⟨hdb2, hr2⟩ := h
          subst hdb2
          intro inv hmem
          simp only [List.mem_map] at hmem
          obtain ⟨i0, hi0, hieq⟩ := hmem
          by_cases hid : (i0.id == (applyScalarFields p a4).id) = true
          · rw [hid] at hieq
            simp at hieq
            subst hieq
            exact ha8
          · rw [Bool.eq_false_iff.mpr hid] at hieq
            simp at hieq
            subst hieq
            exact hdb i0 hi0

theorem create_invoice_empty_items (db : Db) (u : UserRow) (fresh : Nat) (p : NewInvoice)
    (ua : String) (haddr : u.address = some ua) (hempty : p.items = []) :
    create_invoice db u fresh p = .error (400, "At least one line item is required") := by
  simp [create_invoice, haddr, hempty]

theorem create_invoice_empty_items_any_error (db : Db) (u : UserRow) (fresh : Nat)
    (p : NewInvoice) (hempty : p.items = []) :
    ∃ e, create_invoice db u fresh p = .error e := by
  cases haddr : u.address with
  | none => exact ⟨(400, "User address is required"), by simp [create_invoice, haddr]⟩
  | some ua =>
      exact ⟨(400, "At least one line item is required"),
        create_invoice_empty_items db u fresh p ua haddr hempty⟩

theorem create_invoice_invalid_template (db : Db) (u : UserRow) (fresh : Nat) (p : NewInvoice)
    (ua : String) (tid : Nat) (company : CompanyRow)
    (haddr : u.address = some ua) (hne : ¬ p.items = [])
    (hfind : db.companies.find? (fun c => c.id == p.company_id && c.user_id == u.id)
        = some company)
    (htid : p.template_id = some tid)
    (hmiss : db.templates.find? (fun t => t.id == tid && t.user_id == u.id) = none) :
    create_invoice db u fresh p = .error (400, "Invalid template") := by
  have hresolve : resolve_template_id db u.id p.template_id = .error (400, "Invalid template") := by
    simp [resolve_template_id, htid, hmiss]
  simp [create_invoice, haddr, hfind, hresolve, List.isEmpty_iff, hne]

theorem update_invoice_empty_items_exact (db : Db) (u : UserRow) (id fr : Nat)
    (p : UpdateInvoiceRequest) (existing : InvoiceRow)
    (hfound : db.invoices.find? (fun i => i.id == id && i.user_id == some u.id) = some existing)
    (hcid : p.company_id = none) (htid : p.template_id = none)
    (hitems : p.items = some []) :
    update_invoice db u id fr p = .error (400, "At least one line item is required") := by
  simp [update_invoice, hfound, companyStep, hcid, templateStep, htid, resolve_template_id,
    hitems]

theorem update_invoice_empty_items_any_error (db : Db) (u : UserRow) (id fr : Nat)
    (p : UpdateInvoiceRequest) (hitems : p.items = some []) :
    ∃ e, update_invoice db u id fr p = .error e := by
  simp only [update_invoice]
  split
  · exact ⟨_, rfl⟩
  · split
    · exact ⟨_, rfl⟩
    · split
      · exact ⟨_, rfl⟩
      · rw [hitems]
        exact ⟨_, rfl⟩

theorem update_invoice_invalid_template (db : Db) (u : UserRow) (id fr : Nat)
    (p : UpdateInvoiceRequest) (existing : InvoiceRow) (tid : Nat)
    (hfound : db.invoices.find? (fun i => i.id == id && i.user_id == some u.id) = some existing)
    (hcid : p.company_id = none) (htid : p.template_id = some tid)
    (hmiss : db.templates.find? (fun t => t.id == tid && t.user_id == u.id) = none) :
    update_invoice db u id fr p = .error (400, "Invalid template") := by
  simp [update_invoice, hfound, companyStep, hcid, templateStep, htid, resolve_template_id,
    hmiss]

/-- The code's lowercase-then-search check agrees with the spec-side
"contains an opening `<html` tag, case-insensitively" predicate. -/
theorem containsHtmlTag_iff (s : String) :
    containsHtmlTag s = true ↔ containsHtmlTagSpec s := by
  unfold containsHtmlTag containsHtmlTagSpec
  rw [containsSub_iff]
  constructor
  · rintro ⟨u, v, huv⟩
    obtain ⟨a, bc, hsplit, ha, hbc⟩ := List.map_eq_append_iff.mp huv.symm
    obtain ⟨a1, a2, hsplit2, ha1, ha2⟩ := List.map_eq_append_iff.mp ha
    refine ⟨a2, ⟨a1, bc, ?_⟩, ha2⟩
    rw [hsplit, hsplit2]
  · rintro ⟨t, hinf, hmap⟩
    have hm := hinf.map Char.toLower
    rw [hmap] at hm
    exact hm

/-- C1: for every non-empty list of line-item inputs, a successful invoice
creation stores, per item, `line_total = quantity * unit_price` when
`use_quantity` is true (the default when absent) and `unit_price` otherwise,
and stores `total_amount` equal to the sum of these line totals (with the
legacy `amount` field equal to it). -/
theorem invoice_creation_line_totals (db : Db) (user : UserRow) (fresh : Nat)
    (p : NewInvoice) (db' : Db) (r : InvoiceResponse)
    (h : create_invoice db user fresh p = .ok (db', r)) :
    r.items.map (fun it => it.line_total)
      = p.items.map (fun item =>
          if item.use_quantity.getD true then item.quantity * item.unit_price
          else item.unit_price)
    ∧ r.total_amount = (r.items.map (fun it => it.line_total)).sum
    ∧ r.amount = r.total_amount := by
  have hs := create_invoice_ok_spec db user fresh p db' r h
  refine ⟨hs.2.1, ?_, hs.2.2.2.1⟩
  rw [hs.2.1]
  exact hs.2.2.1

/-- Witness for C1 at the concrete fixture. -/
theorem invoice_creation_line_totals_witness :
    exCreateRes.2.items.map (fun it => it.line_total)
      = exPayload.items.map (fun item =>
          if item.use_quantity.getD true then item.quantity * item.unit_price
          else item.unit_price)
    ∧ exCreateRes.2.total_amount
        = (exCreateRes.2.items.map (fun it => it.line_total)).sum
    ∧ exCreateRes.2.amount = exCreateRes.2.total_amount :=
  invoice_creation_line_totals exDb0 exUser 100 exPayload exCreateRes.1 exCreateRes.2
    (by decide)

/-- C2 counterexample: the state reached by creating an invoice (total 10) and
then updating it with `amount := 99` and no items is a reachable state whose
stored `total_amount` (99) differs from the sum of its stored line items'
`line_total` values (10): the `amount` field of an update edits `total_amount`
independently of the line items (invoices.rs lines 383-386). -/
theorem total_amount_invariant_ctrex :
    create_invoice exDb0 exUser 100 exPayload = .ok exCreateRes
    ∧ update_invoice exCreateRes.1 exUser 100 0 exUpdAmount = .ok exUpdateRes
    ∧ exUpdateRes.2.total_amount = 99
    ∧ invoiceItemsTotal exUpdateRes.1 100 = 10
    ∧ dbTotalsConsistent exCreateRes.1 = true
    ∧ dbTotalsConsistent exUpdateRes.1 = false := by decide

/-- C2 amended: `total_amount` equals the sum of the stored line items after
every create and after every items-bearing update, and `amount` always equals
`total_amount` (both on the operation's result and as an invariant over all
stored invoices); but `total_amount` is *not* protected against the
independent `amount` edit exhibited by the counterexample. -/
theorem total_amount_consistency_amended :
    (∀ (db : Db) (user : UserRow) (fresh : Nat) (p : NewInvoice) (db' : Db)
        (r : InvoiceResponse),
      (∀ li ∈ db.line_items, ¬ li.invoice_id = fresh) →
      create_invoice db user fresh p = .ok (db', r) →
      r.total_amount = invoiceItemsTotal db' r.id ∧ r.amount = r.total_amount)
    ∧ (∀ (db : Db) (u : UserRow) (id fr : Nat) (p : UpdateInvoiceRequest)
        (its : List LineItemInput) (db' : Db) (r : InvoiceResponse),
      p.items = some its →
      update_invoice db u id fr p = .ok (db', r) →
      r.total_amount = invoiceItemsTotal db' r.id ∧ r.amount = r.total_amount)
    ∧ (∀ (db : Db) (user : UserRow) (fresh : Nat) (p : NewInvoice) (db' : Db)
        (r : InvoiceResponse),
      (∀ inv ∈ db.invoices, inv.amount = inv.total_amount) →
      create_invoice db user fresh p = .ok (db', r) →
      ∀ inv ∈ db'.invoices, inv.amount = inv.total_amount)
    ∧ (∀ (db : Db) (u : UserRow) (id fr : Nat) (p : UpdateInvoiceRequest) (db' : Db)
        (r : InvoiceResponse),
      (∀ inv ∈ db.invoices, inv.amount = inv.total_amount) →
      update_invoice db u id fr p = .ok (db', r) →
      ∀ inv ∈ db'.invoices, inv.amount = inv.total_amount) := by
  refine ⟨?_, ?_, ?_, ?_⟩
  · intro db user fresh p db' r hfresh h
    have hs := create_invoice_ok_spec db user fresh p db' r h
    have h1 : invoiceItemsTotal db' r.id = (p.items.map lineItemTotal).sum := by
      rw [invoiceItemsTotal, hs.1, hs.2.2.2.2.2.1, itemsTotalOf_append,
        itemsTotalOf_eq_zero _ _ hfresh, itemsTotalOf_insertItems, zero_add]
    exact ⟨by rw [h1]; exact hs.2.2.1, hs.2.2.2.1⟩
  · intro db u id fr p its db' r hp h
    have hs := update_invoice_ok_items_spec db u id fr p its db' r hp h
    have h1 : invoiceItemsTotal db' r.id = (its.map lineItemTotal).sum := by
      rw [invoiceItemsTotal, hs.2.2.2.1, itemsTotalOf_append, itemsTotalOf_filter_out,
        itemsTotalOf_insertItems, zero_add]
    exact ⟨by rw [h1]; exact hs.2.1, hs.2.2.1⟩
  · intro db user fresh p db' r hdb h
    intro inv hmem
    rcases (create_invoice_ok_spec db user fresh p db' r h).2.2.2.2.2.2.2 inv hmem with
      hold | heq
    · exact hdb inv hold
    · exact heq
  · intro db u id fr p db' r hdb h
    exact update_invoice_preserves_amount_eq db u id fr p db' r hdb h

/-- Witness for the C2 amended theorem at the concrete fixture. -/
theorem total_amount_consistency_amended_witness :
    exCreateRes.2.total_amount = invoiceItemsTotal exCreateRes.1 exCreateRes.2.id
    ∧ exCreateRes.2.amount = exCreateRes.2.total_amount :=
  total_amount_consistency_amended.1 exDb0 exUser 100 exPayload exCreateRes.1 exCreateRes.2
    (by decide) (by decide)

/-- C4: template ownership resolution is asymmetric.  At creation/update time
an explicitly supplied template id whose owned lookup fails makes the whole
operation fail with the `Invalid template` validation error; at render time
the same failed lookup silently yields the built-in default template with the
custom flag false. -/
theorem template_ownership_asymmetry :
    (∀ (db : Db) (uid tid : Nat),
      db.templates.find? (fun t => t.id == tid && t.user_id == uid) = none →
      resolve_template_id db uid (some tid) = .error (400, "Invalid template"))
    ∧ (∀ (db : Db) (u : UserRow) (fresh : Nat) (p : NewInvoice) (ua : String) (tid : Nat)
        (company : CompanyRow),
      u.address = some ua → ¬ p.items = [] →
      db.companies.find? (fun c => c.id == p.company_id && c.user_id == u.id) = some company →
      p.template_id = some tid →
      db.templates.find? (fun t => t.id == tid && t.user_id == u.id) = none →
      create_invoice db u fresh p = .error (400, "Invalid template"))
    ∧ (∀ (db : Db) (u : UserRow) (id fr : Nat) (p : UpdateInvoiceRequest)
        (existing : InvoiceRow) (tid : Nat),
      db.invoices.find? (fun i => i.id == id && i.user_id == some u.id) = some existing →
      p.company_id = none → p.template_id = some tid →
      db.templates.find? (fun t => t.id == tid && t.user_id == u.id) = none →
      update_invoice db u id fr p = .error (400, "Invalid template"))
    ∧ (∀ (db : Db) (uid tid : Nat),
      db.templates.find? (fun t => t.id == tid && t.user_id == uid) = none →
      load_template db (some uid) (some tid) = default_template invoiceNoteText
      ∧ (load_template db (some uid) (some tid)).is_custom = false) := by
  refine ⟨?_, ?_, ?_, ?_⟩
  · intro db uid tid hmiss
    simp [resolve_template_id, hmiss]
  · intro db u fresh p ua tid company haddr hne hfind htid hmiss
    exact create_invoice_invalid_template db u fresh p ua tid company haddr hne hfind htid hmiss
  · intro db u id fr p existing tid hfound hcid htid hmiss
    exact update_invoice_invalid_template db u id fr p existing tid hfound hcid htid hmiss
  · intro db uid tid hmiss
    constructor
    · simp [load_template, hmiss]
    · simp [load_template, hmiss, default_template]

/-- Witness for C4: an unknown template id in an empty template table. -/
theorem template_ownership_asymmetry_witness :
    resolve_template_id exDb0 1 (some 5) = .error (400, "Invalid template")
    ∧ load_template exDb0 (some 1) (some 5) = default_template invoiceNoteText :=
  ⟨template_ownership_asymmetry.1 exDb0 1 5 (by decide),
    (template_ownership_asymmetry.2.2.2 exDb0 1 5 (by decide)).1⟩

/-- C7: an empty line-item list is rejected.  At create time, with the user
address present (the only check performed earlier), the error is exactly
`At least one line item is required`, raised before the company lookup, any
total computation or any insert; without that assumption some validation
error is still raised.  At update time the same holds once the invoice is
found and the earlier optional company/template checks pass; any
items-bearing update with an empty list errors in every case.  In this
embedding an `Except.error` result is returned without constructing any new
database state, which is the transactional "nothing persisted" guarantee. -/
theorem empty_line_items_rejected :
    (∀ (db : Db) (u : UserRow) (fresh : Nat) (p : NewInvoice) (ua : String),
      u.address = some ua → p.items = [] →
      create_invoice db u fresh p = .error (400, "At least one line item is required"))
    ∧ (∀ (db : Db) (u : UserRow) (fresh : Nat) (p : NewInvoice),
      p.items = [] → ∃ e, create_invoice db u fresh p = .error e)
    ∧ (∀ (db : Db) (u : UserRow) (id fr : Nat) (p : UpdateInvoiceRequest)
        (existing : InvoiceRow),
      db.invoices.find? (fun i => i.id == id && i.user_id == some u.id) = some existing →
      p.company_id = none → p.template_id = none → p.items = some [] →
      update_invoice db u id fr p = .error (400, "At least one line item is required"))
    ∧ (∀ (db : Db) (u : UserRow) (id fr : Nat) (p : UpdateInvoiceRequest),
      p.items = some [] → ∃ e, update_invoice db u id fr p = .error e) := by
  refine ⟨?_, ?_, ?_, ?_⟩
  · intro db u fresh p ua haddr hempty
    exact create_invoice_empty_items db u fresh p ua haddr hempty
  · intro db u fresh p hempty
    exact create_invoice_empty_items_any_error db u fresh p hempty
  · intro db u id fr p existing hfound hcid htid hitems
    exact update_invoice_empty_items_exact db u id fr p existing hfound hcid htid hitems
  · intro db u id fr p hitems
    exact update_invoice_empty_items_any_error db u id fr p hitems

/-- Witness for C7: the concrete create with an empty item list. -/
theorem empty_line_items_rejected_witness :
    create_invoice exDb0 exUser 100 exEmptyPayload
      = .error (400, "At least one line item is required") :=
  empty_line_items_rejected.1 exDb0 exUser 100 exEmptyPayload "12 Freelancer Way"
    (by decide) (by decide)

/-- C5: for every template string on which the engine raises a syntax/render
error, the `render` closure emits the original, unexpanded template text and
never fails.  The side condition states the (trivially true) fact about the
real Handlebars engine that a whitespace-only template expands successfully,
which is what makes the blank-input short-circuit of the closure unreachable
under an engine error. -/
theorem render_error_fallback :
    ∀ engine : HbEngine,
      (∀ s, isBlank s = true → ∃ res, engine s = .ok res) →
      ∀ input err, engine input = .error err → renderStr engine input = input := by
  intro engine hwf input err herr
  by_cases hb : isBlank input = true
  · obtain ⟨res, hres⟩ := hwf input hb
    rw [hres] at herr
    exact absurd herr (by simp)
  · unfold renderStr
    rw [if_neg hb, herr]

/-- Witness for C5: a malformed non-blank template falls back to its raw
text. -/
theorem render_error_fallback_witness :
    renderStr engineBoom "\x7b\x7bbad" = "\x7b\x7bbad" :=
  render_error_fallback engineBoom
    (fun s hs => ⟨"", by simp [engineBoom, hs]⟩) "\x7b\x7bbad" "syntax error" (by decide)

set_option maxRecDepth 10000 in
/-- C6 counterexample: for a fragment custom template the wrapped document's
page-shell head (everything before `<body>`) differs from the head the default
rendering path produces — the two shells embed different stylesheets — so the
custom wrap is not "the same fixed page shell that the default template
rendering uses". -/
theorem custom_template_wrapping_ctrex :
    takeUntilBody (buildInvoiceHtml okEngine exCustomTpl exInvRow []).data
      ≠ takeUntilBody
          (buildInvoiceHtml okEngine (default_template invoiceNoteText) exInvRow []).data
    ∧ containsHtmlTag (renderStr (okEngine (mkRenderCtx exInvRow [])) exCustomTpl.html)
        = false := by decide

/-- C6 amended: the renderer expands the raw custom HTML against the context;
if the expansion contains an opening `<html` tag (case-insensitively, proved
equivalent to the code's lowercase-then-search) the result is used verbatim as
the complete document, and otherwise it is wrapped in the fixed custom-branch
page shell (doctype, head, embedded stylesheet, body) — a shell whose
stylesheet differs from the one the default rendering path emits. -/
theorem custom_template_wrapping_amended :
    (∀ s, containsHtmlTag s = true ↔ containsHtmlTagSpec s)
    ∧ (∀ (hb : RenderCtxData → HbEngine) (tpl : InvoiceTemplateData)
        (invoice : InvoiceRow) (items : List LineItemResponse),
      tpl.is_custom = true →
      (containsHtmlTagSpec (renderStr (hb (mkRenderCtx invoice items)) tpl.html) →
        buildInvoiceHtml hb tpl invoice items
          = renderStr (hb (mkRenderCtx invoice items)) tpl.html)
      ∧ (¬ containsHtmlTagSpec (renderStr (hb (mkRenderCtx invoice items)) tpl.html) →
        buildInvoiceHtml hb tpl invoice items
          = customShellHead ++ renderStr (hb (mkRenderCtx invoice items)) tpl.html
              ++ customShellTail)) := by
  refine ⟨containsHtmlTag_iff, ?_⟩
  intro hb tpl invoice items hcustom
  constructor
  · intro hspec
    have hc : containsHtmlTag (renderStr (hb (mkRenderCtx invoice items)) tpl.html) = true :=
      (containsHtmlTag_iff _).mpr hspec
    simp [buildInvoiceHtml, hcustom, hc]
  · intro hspec
    have hc : containsHtmlTag (renderStr (hb (mkRenderCtx invoice items)) tpl.html)
        = false :=
      Bool.eq_false_iff.mpr (fun hx => hspec ((containsHtmlTag_iff _).mp hx))
    simp [buildInvoiceHtml, hcustom, hc]

/-- Witness for the C6 amended theorem: a custom template already containing
`<HTML` is used verbatim. -/
theorem custom_template_wrapping_amended_witness :
    buildInvoiceHtml okEngine { html := "<HTML>hi", is_custom := true } exInvRow []
      = renderStr (okEngine (mkRenderCtx exInvRow [])) "<HTML>hi" :=
  ((custom_template_wrapping_amended.2 okEngine
      { html := "<HTML>hi", is_custom := true } exInvRow [] rfl).1
    (by
      have hre : renderStr (okEngine (mkRenderCtx exInvRow [])) "<HTML>hi" = "<HTML>hi" := by
        decide
      rw [hre]
      exact ⟨"<HTML".data, ⟨[], ">hi".data, by decide⟩, by decide⟩))

/-- C8: the converter is invoked on exactly the HTML document the renderer
produced (modelled as the converter function's argument, i.e. what is written
to the child's standard input); on a successful exit the returned PDF bytes
are exactly the captured standard output, and on a failure exit the operation
fails with the captured standard error text as the payload and returns no PDF
bytes. -/
theorem pdf_converter_boundary :
    ∀ (hb : RenderCtxData → HbEngine) (conv : Converter) (invoice : InvoiceRow)
      (items : List LineItemResponse) (template : InvoiceTemplateData) (out : ConvOutput),
      conv (buildInvoiceHtml hb template invoice items) = .completed out →
      (out.success = true →
        build_invoice_pdf hb conv invoice items template = .ok out.stdout)
      ∧ (out.success = false →
        build_invoice_pdf hb conv invoice items template = .error out.stderr
        ∧ ∀ bytes, ¬ build_invoice_pdf hb conv invoice items template = .ok bytes) := by
  intro hb conv invoice items template out hrun
  constructor
  · intro hsucc
    simp [build_invoice_pdf, runWkhtmltopdf, hrun, hsucc]
  · intro hfail
    have herr : build_invoice_pdf hb conv invoice items template = .error out.stderr := by
      simp [build_invoice_pdf, runWkhtmltopdf, hrun, hfail]
    refine ⟨herr, ?_⟩
    intro bytes hcon
    rw [herr] at hcon
    exact absurd hcon (by simp)

/-- Witness for C8: the success case returns exactly the converter's standard
output. -/
theorem pdf_converter_boundary_witness :
    build_invoice_pdf okEngine okConv exInvRow [] exCustomTpl = .ok [37, 80, 68, 70] :=
  (pdf_converter_boundary okEngine okConv exInvRow [] exCustomTpl okConvOut rfl).1 rfl

/-- C9: a successful creation assigns the invoice number
`"IN-" ++ zero-pad to five digits (owner's current invoice count + 1)`, where
the count is over the invoices stored for that owner; zero-padding widens to
five digits exactly (length `max 5 (digit count)`), and count 0 produces the
spec's example `IN-00001`. -/
theorem invoice_number_sequential (db : Db) (u : UserRow) (fresh : Nat) (p : NewInvoice)
    (db' : Db) (r : InvoiceResponse)
    (h : create_invoice db u fresh p = .ok (db', r)) :
    r.invoice_number
      = "IN-" ++ zeroPad5 ((db.invoices.filter (fun i => i.user_id == some u.id)).length + 1)
    ∧ (∀ m : Nat, (zeroPad5 m).length = max 5 (Nat.repr m).length)
    ∧ "IN-" ++ zeroPad5 1 = "IN-00001" := by
  have hs := create_invoice_ok_spec db u fresh p db' r h
  refine ⟨hs.2.2.2.2.1, ?_, by decide⟩
  intro m
  have hmk : ∀ l : List Char, (String.mk l).length = l.length := fun l => rfl
  simp only [zeroPad5, hmk, List.length_append, List.length_replicate]
  omega

/-- Witness for C9: the first invoice of the fixture owner is `IN-00001`. -/
theorem invoice_number_sequential_witness :
    exCreateRes.2.invoice_number
      = "IN-" ++ zeroPad5
          ((exDb0.invoices.filter (fun i => i.user_id == some exUser.id)).length + 1) :=
  (invoice_number_sequential exDb0 exUser 100 exPayload exCreateRes.1 exCreateRes.2
    (by decide)).1

/-- C10: the `client_name`/`client_address` fields of the create payload have
no effect on the result (changing them yields the identical outcome), and on
success the stored client snapshot is taken from the referenced company row's
name and address. -/
theorem client_snapshot_from_company :
    (∀ (db : Db) (u : UserRow) (fresh : Nat) (p : NewInvoice) (n a : String),
      create_invoice db u fresh { p with client_name := n, client_address := a }
        = create_invoice db u fresh p)
    ∧ (∀ (db : Db) (u : UserRow) (fresh : Nat) (p : NewInvoice) (db' : Db)
        (r : InvoiceResponse) (company : CompanyRow),
      create_invoice db u fresh p = .ok (db', r) →
      db.companies.find? (fun c => c.id == p.company_id && c.user_id == u.id)
        = some company →
      r.client_name = company.name ∧ r.client_address = company.address) := by
  constructor
  · intro db u fresh p n a
    rfl
  · intro db u fresh p db' r company h hfind
    obtain ⟨c0, hfind0, hn, ha, hc⟩ := (create_invoice_ok_spec db u fresh p db' r h).2.2.2.2.2.2.1
    rw [hfind0] at hfind
    injection hfind with hceq
    subst hceq
    exact ⟨hn, ha⟩

/-- Witness for C10: the fixture invoice snapshots the company record, not the
payload fields. -/
theorem client_snapshot_from_company_witness :
    exCreateRes.2.client_name = exCompany.name
    ∧ exCreateRes.2.client_address = exCompany.address :=
  client_snapshot_from_company.2 exDb0 exUser 100 exPayload exCreateRes.1 exCreateRes.2
    exCompany (by decide) (by decide)
